import Mathlib

/-!
Verification of the `report_ventas` guarded query service.

SQL text is modelled as `List Char`; Python string operations
(`.lower()`, `.strip()`, `in`, `.startswith`) become the corresponding
list operations, so that every step of `run_query` in `app.py` is an
executable Lean function.
-/

/-- Python `str.lower()` restricted to the ASCII inputs the service sees. -/
def lowerl (s : List Char) : List Char := s.map Char.toLower

/-- The whitespace characters Python `str.strip()` removes. -/
def isPySpace (c : Char) : Bool :=
  c == ' ' || c == '\t' || c == '\n' || c == '\r' || c == '\x0b' || c == '\x0c'

/-- Python `str.strip()`: drop leading and trailing whitespace. -/
def pyStrip (s : List Char) : List Char :=
  ((s.dropWhile isPySpace).reverse.dropWhile isPySpace).reverse

/-- The denylist tuple `FORBIDDEN_PATTERNS` of `app.py`. -/
def FORBIDDEN_PATTERNS : List (List Char) :=
  ["pragma", "attach", "detach", "vacuum", "reindex",
   "drop", "alter", "insert", "update", "delete", "replace",
   "create", "truncate", "grant", "revoke", "begin", "commit",
   "rollback"].map String.data

/-- Outcome of the inline SQL validation in `run_query`. -/
inductive Validation where
  | ok
  | rejected (reason : String)
deriving DecidableEq

/-- The validation steps of `run_query` (`app.py` lines 153-160), in source
order: SELECT prefix, statement separator, denylist substring scan.
Python `x in s` is substring containment, modelled by `<:+:`. -/
def validate (sql_raw : List Char) : Validation :=
  let lowered := lowerl sql_raw
  if ¬ ("select".data <+: lowered) then
    .rejected "Solo se permiten consultas que inicien con SELECT."
  else if [';'] <:+: sql_raw then
    .rejected "Patrón prohibido detectado: ;"
  else if FORBIDDEN_PATTERNS.any (fun x => decide (x <:+: lowered)) then
    .rejected "Consulta contiene operaciones no permitidas."
  else
    .ok

example : validate "SELECT codigo FROM ventas".data = .ok := by decide
example : validate "SELECT updated_at FROM ventas".data =
    .rejected "Consulta contiene operaciones no permitidas." := by decide
example : validate "SELECT * FROM sales; DROP TABLE sales".data =
    .rejected "Patrón prohibido detectado: ;" := by decide

/-- Coercion `limit = int(payload.get("limit") or 500)` (`app.py` line 150): an absent
limit, or the falsy integer 0, falls back to 500; every other integer passes
through unchanged. -/
def effLimit (requested : Option Int) : Int :=
  match requested with
  | Option.none => 500
  | some v => if v = 0 then 500 else v

/-- Coercion `offset = int(payload.get("offset") or 0)` (`app.py` line 151). -/
def effOffset (requested : Option Int) : Int :=
  match requested with
  | Option.none => 0
  | some v => v

/-- The LIMIT half of the enforcement (`app.py` lines 164-165): append the
f-string `" LIMIT {limit}"` unless the lowered original text already
contains " limit ". -/
def enforceLimit (sql_raw : List Char) (limit : Int) : List Char :=
  if ¬ (" limit ".data <:+: lowerl sql_raw) then
    sql_raw ++ " LIMIT ".data ++ (toString limit).data
  else sql_raw

/-- The LIMIT/OFFSET enforcement of `run_query` (`app.py` lines 162-167):
both scans inspect the lowered ORIGINAL text (`lowered` in the source); the
appended pieces are the f-strings `" LIMIT {limit}"` and
`" OFFSET {offset}"`. -/
def enforce (sql_raw : List Char) (limit offset : Int) : List Char :=
  if ¬ (" offset ".data <:+: lowerl sql_raw) ∧ offset > 0 then
    enforceLimit sql_raw limit ++ " OFFSET ".data ++ (toString offset).data
  else enforceLimit sql_raw limit

example : enforce "SELECT codigo FROM ventas".data 500 0 =
    "SELECT codigo FROM ventas LIMIT 500".data := by decide
example : enforce "SELECT codigo FROM ventas".data 10 3 =
    "SELECT codigo FROM ventas LIMIT 10 OFFSET 3".data := by decide
example : enforce "SELECT codigo FROM ventas LIMIT 5".data 10 0 =
    "SELECT codigo FROM ventas LIMIT 5".data := by decide

/-- A scalar cell value as SQLite returns it to the service. -/
inductive SVal where
  | null
  | int (n : Int)
  | text (s : String)
deriving DecidableEq

/-- What `cur.execute(sql, params)` in `run_query` sends to the driver
(`app.py` line 172): the text produced by the LIMIT/OFFSET enforcement and
the caller's `params` mapping, passed through unchanged. -/
def prepare (sql_raw : List Char) (params : List (String × SVal))
    (limit offset : Int) : List Char × List (String × SVal) :=
  (enforce sql_raw limit offset, params)

/-- The `sqlite3.Row` name lookup (used by `dict(r)`): scan the row's columns
for the first name that matches case-insensitively, as the driver does. -/
def rowGet (r : List (String × SVal)) (k : String) : SVal :=
  match r.find? (fun p => lowerl p.1.data == lowerl k.data) with
  | some p => p.2
  | Option.none => .null

/-- Python `dict` assignment `d[k] = v`: overwrite in place if the key is
present, else append, preserving insertion order. -/
def dictInsert (d : List (String × SVal)) (k : String) (v : SVal) :
    List (String × SVal) :=
  if d.any (fun p => p.1 == k) then
    d.map (fun p => if p.1 == k then (k, v) else p)
  else d ++ [(k, v)]

/-- Conversion `dict(r)` of a `sqlite3.Row` (`app.py` line 175): iterate `r.keys()` in
column order and assign `r[key]` for each. -/
def dictOfRow (r : List (String × SVal)) : List (String × SVal) :=
  (r.map Prod.fst).foldl (fun d k => dictInsert d k (rowGet r k)) []

/-- The assignment `fields = rows[0].keys() if rows else []` (`app.py` line 174). -/
def normalizeFields (rows : List (List (String × SVal))) : List String :=
  match rows with
  | [] => []
  | r :: _ => r.map Prod.fst

example : dictOfRow [("a", .int 1), ("a", .int 2)] = [("a", .int 1)] := by decide
example : normalizeFields [] = [] := by decide

/-- The JSON body of a successful `/run_query` response
(`app.py` lines 177-183). -/
structure RunQueryOk where
  fields : List String
  limit_applied : Int
  offset : Int
  rowcount : Nat
  rows : List (List (String × SVal))
deriving DecidableEq

/-- The `/run_query` handler (`app.py` lines 146-183), with the database
execution abstracted by `dbRows`, the list of rows the driver returns for
the enforced statement.  The caller's `params` only flow into the driver
call, modelled separately by `prepare`. -/
def run_query (sql_payload : List Char) (limitOpt offsetOpt : Option Int)
    (dbRows : List (List (String × SVal))) : Except String RunQueryOk :=
  let sql_raw := pyStrip sql_payload
  let limit := effLimit limitOpt
  let offset := effOffset offsetOpt
  match validate sql_raw with
  | .rejected r => .error r
  | .ok =>
      let data := dbRows.map dictOfRow
      .ok { fields := normalizeFields dbRows
            limit_applied := limit
            offset := offset
            rowcount := data.length
            rows := data }

example : run_query "SELECT codigo FROM ventas".data Option.none Option.none
    [[("codigo", .int 7)]] =
    .ok ⟨["codigo"], 500, 0, 1, [[("codigo", .int 7)]]⟩ := by rfl

/-! Report compiler.

Modelled from the spec: the structured-report compiler behind
`POST /api/v1/report` is not present under `src/`; the definitions below
follow spec section 4.2 (allowlisted dimensions and metrics, SELECT =
dimensions then aggregation expressions, GROUP BY exactly when dimensions
are non-empty, ORDER BY from validated sort pairs). -/

/-- Modelled from the spec: a structured report request (`ReportQuery`);
limit/offset are handled downstream by the shared pagination enforcement. -/
structure ReportQuery where
  dimensions : List (List Char)
  metrics : List (List Char)
  sort : List (List Char × List Char)
deriving DecidableEq

/-- Modelled from the spec: the fixed column allowlist for dimensions
(the indexed columns of the `ventas` table plus the spec's example). -/
def DIMENSION_ALLOWLIST : List (List Char) :=
  ["fecha", "codigo", "vendedor", "nit", "region"].map String.data

/-- Modelled from the spec: the metric allowlist mapping metric name to its
aggregation expression (spec example: metric "venta" maps to
`SUM(venta) AS venta`). -/
def METRIC_ALLOWLIST : List (List Char × List Char) :=
  [("venta", "SUM(venta) AS venta"),
   ("revenue", "SUM(revenue) AS revenue")].map
    (fun p => (p.1.data, p.2.data))

/-- Comma-join of SQL fragments. -/
def joinComma (xs : List (List Char)) : List Char :=
  List.intercalate ", ".data xs

/-- Modelled from the spec: sort direction must be asc/desc
case-insensitively, normalized to uppercase. -/
def normDir (d : List Char) : Option (List Char) :=
  if lowerl d = "asc".data then some "ASC".data
  else if lowerl d = "desc".data then some "DESC".data
  else Option.none

/-- A sort key must belong to the dimension allowlist or the metric-alias
set. -/
def sortKeyAllowed (k : List Char) : Bool :=
  DIMENSION_ALLOWLIST.contains k || (METRIC_ALLOWLIST.map Prod.fst).contains k

/-- The aggregation expressions of a report's metrics, in the order
supplied. -/
def metricExprs (ms : List (List Char)) : List (List Char) :=
  ms.map (fun m => (METRIC_ALLOWLIST.lookup m).getD [])

/-- The ORDER BY clause list: empty when the sort list is empty. -/
def orderClauses (sort : List (List Char × List Char)) : List (List Char) :=
  if sort.isEmpty then []
  else ["ORDER BY ".data ++
    joinComma (sort.map (fun p => p.1 ++ [' '] ++ ((normDir p.2).getD [])))]

/-- Modelled from the spec: `compile` as a clause list (SELECT, then an
optional GROUP BY, then an optional ORDER BY); any name outside its
allowlist rejects with the offending name in the reason. -/
def compileClauses (r : ReportQuery) : Except (List Char) (List (List Char)) :=
  match r.dimensions.find? (fun d => ! DIMENSION_ALLOWLIST.contains d) with
  | some d => .error ("dimension not allowed: ".data ++ d)
  | Option.none =>
  match r.metrics.find? (fun m => ! (METRIC_ALLOWLIST.map Prod.fst).contains m) with
  | some m => .error ("metric not allowed: ".data ++ m)
  | Option.none =>
  match r.sort.find? (fun p => ! sortKeyAllowed p.1 || (normDir p.2).isNone) with
  | some p => .error ("sort not allowed: ".data ++ p.1)
  | Option.none =>
    .ok (["SELECT ".data ++ joinComma (r.dimensions ++ metricExprs r.metrics)
            ++ " FROM ventas".data]
         ++ (if r.dimensions.isEmpty then []
             else ["GROUP BY ".data ++ joinComma r.dimensions])
         ++ orderClauses r.sort)

/-- Modelled from the spec: the compiled statement text is the space-join of
the clauses. -/
def compile (r : ReportQuery) : Except (List Char) (List Char) :=
  (compileClauses r).map (List.intercalate [' '])

example : compile ⟨["region".data], ["revenue".data], [("revenue".data, "desc".data)]⟩ =
    .ok "SELECT region, SUM(revenue) AS revenue FROM ventas GROUP BY region ORDER BY revenue DESC".data := by rfl
example : compileClauses ⟨[], ["venta".data], []⟩ =
    .ok ["SELECT SUM(venta) AS venta FROM ventas".data] := by rfl

/-! Excel import type inference (`src/ventasdb.py`). -/

/-- A sampled spreadsheet cell as `openpyxl` yields it: empty, boolean,
integer, floating-point number, text, or a date/datetime object.  A float is
carried as the rational it denotes; the two observations `guess_type` makes
of one (`float(x).is_integer()` and the shape of `str(x)`) are derived from
it below. -/
inductive Cell where
  | none
  | bool (b : Bool)
  | int (n : Int)
  | float (q : ℚ)
  | str (s : String)
  | date (y m d : Nat)
deriving DecidableEq

/-- Digits-only test, Python `str.isdigit()` on ASCII: non-empty and every
character in 0-9. -/
def isDigits (s : List Char) : Bool :=
  ! s.isEmpty && s.all (fun c => c.isDigit)

/-- Numeric value of a digit string. -/
def digitsToNat (s : List Char) : Nat :=
  s.foldl (fun acc c => acc * 10 + (c.toNat - '0'.toNat)) 0

/-- Python `float(s)` on a string, as the rational it denotes: optional
surrounding whitespace, optional sign, digits with an optional single
decimal point (at least one digit overall).  Exotic forms (exponents,
inf/nan, underscores) are outside the cell population of this importer. -/
def parseFloat? (s : List Char) : Option ℚ :=
  let t := pyStrip s
  let (sign, u) : ℚ × List Char :=
    match t with
    | '-' :: rest => (-1, rest)
    | '+' :: rest => (1, rest)
    | _ => (1, t)
  let intPart := u.takeWhile Char.isDigit
  let rest := u.dropWhile Char.isDigit
  match rest with
  | [] =>
      if intPart.isEmpty then Option.none
      else some (sign * (digitsToNat intPart : ℚ))
  | '.' :: frac =>
      if ! isDigits frac ∧ ! (frac.isEmpty ∧ ! intPart.isEmpty) then Option.none
      else
        some (sign * ((digitsToNat intPart : ℚ)
          + (digitsToNat frac : ℚ) / ((10 : ℚ) ^ frac.length)))
  | _ => Option.none

/-- Python `str(x)` for each cell shape.  A float's textual form is a
decimal rendering; only its emptiness and its split shape are ever
observed, and no decimal float rendering is empty or splits into three
all-digit parts, which the rational's rendering also never does. -/
def cellStr : Cell → List Char
  | .none => "None".data
  | .bool true => "True".data
  | .bool false => "False".data
  | .int n => (toString n).data
  | .float q => (toString q).data
  | .str s => s.data
  | .date y m d => (toString y).data ++ ['-'] ++ (toString m).data
      ++ ['-'] ++ (toString d).data

/-- Python `float(x)` over a cell: fails (raises) on None and dates,
parses strings, and is the identity on numbers. -/
def cellFloat? : Cell → Option ℚ
  | .none => Option.none
  | .bool b => some (if b then 1 else 0)
  | .int n => some (n : ℚ)
  | .float q => some q
  | .str s => parseFloat? s.data
  | .date _ _ _ => Option.none

/-- Predicate `is_int` of `guess_type` (`ventasdb.py` lines 29-33): never for a bool;
otherwise `float(x).is_integer() and str(x).strip() != ""`, with a raised
exception counting as False. -/
def is_int (x : Cell) : Bool :=
  match x with
  | .bool _ => false
  | _ =>
    match cellFloat? x with
    | some q => q.den == 1 && ! (pyStrip (cellStr x)).isEmpty
    | Option.none => false

/-- Predicate `is_real` (`ventasdb.py` lines 34-38): `float(x)` succeeds and
`str(x).strip() != ""`. -/
def is_real (x : Cell) : Bool :=
  match cellFloat? x with
  | some _ => ! (pyStrip (cellStr x)).isEmpty
  | Option.none => false

/-- One range-checked split attempt of `is_date_like`. -/
def dateTriple (sep : Char) (xs : List Char) : Bool :=
  match xs.splitOn sep with
  | [p1, p2, p3] =>
      isDigits p1 && isDigits p2 && isDigits p3 &&
      (let y := digitsToNat p1; let m := digitsToNat p2; let d := digitsToNat p3
       1 ≤ m && m ≤ 12 && 1 ≤ d && d ≤ 31 && 1900 ≤ y && y ≤ 2100)
  | _ => false

/-- Predicate `is_date_like` (`ventasdb.py` lines 39-48): date/datetime instances,
or a string splitting on "-" or "/" into three all-digit parts in range. -/
def is_date_like (x : Cell) : Bool :=
  match x with
  | .date _ _ _ => true
  | _ =>
    let xs := pyStrip (cellStr x)
    dateTriple '-' xs || dateTriple '/' xs

/-- The blank test of the sampling loop: `v is None or str(v).strip()==""`. -/
def isBlankCell (v : Cell) : Bool :=
  match v with
  | .none => true
  | _ => (pyStrip (cellStr v)).isEmpty

/-- The counters accumulated by the loop of `guess_type`. -/
structure TypeCounts where
  seen_any : Bool
  ints : Nat
  reals : Nat
  dates : Nat
  texts : Nat
deriving DecidableEq

/-- One iteration of the sampling loop (`ventasdb.py` lines 52-63). -/
def countCell (c : TypeCounts) (v : Cell) : TypeCounts :=
  if isBlankCell v then c
  else
    let c := { c with seen_any := true }
    if is_date_like v then { c with dates := c.dates + 1 }
    else if is_int v then { c with ints := c.ints + 1 }
    else if is_real v then { c with reals := c.reals + 1 }
    else { c with texts := c.texts + 1 }

/-- The decision chain of `guess_type` (`ventasdb.py` lines 64-78), branch
for branch, including the conditional expression on line 68 whose every arm
is "TEXT". -/
def decideType (c : TypeCounts) : String :=
  if c.seen_any = false then "TEXT"
  else if c.texts > 0 then "TEXT"
  else if c.dates > 0 ∧ c.dates ≥ c.ints + c.reals then
    (if c.ints + c.reals > c.dates then "TEXT"
     else if c.dates = 0 then "TEXT" else "TEXT")
  else if c.dates > 0 ∧ c.ints + c.reals = 0 then "DATE"
  else if c.reals > 0 ∧ c.ints = 0 then "REAL"
  else if c.reals > 0 ∧ c.ints > 0 then "REAL"
  else if c.ints > 0 then "INTEGER"
  else "TEXT"

/-- Function `guess_type` (`ventasdb.py` lines 24-78). -/
def guess_type (values : List Cell) : String :=
  decideType (values.foldl countCell ⟨false, 0, 0, 0, 0⟩)

/-- The safety rewrite in `main` (`ventasdb.py` line 129): anything outside
INTEGER/REAL/DATE becomes TEXT. -/
def sanitizeType (t : String) : String :=
  if t ∉ ["INTEGER", "REAL", "DATE"] then "TEXT" else t

/-- The column-type mapping of the CREATE TABLE loop
(`ventasdb.py` lines 156-159): DATE is stored as TEXT. -/
def sqliteColType (t : String) : String :=
  if t = "DATE" then "TEXT" else t

example : guess_type [.int 3, .float (mkRat 7 2), .none] = "REAL" := by decide
example : guess_type [.date 2021 5 3, .date 2020 1 1] = "TEXT" := by decide
example : guess_type [.str "2021-05-03"] = "TEXT" := by decide
example : guess_type [.int 1, .int 2] = "INTEGER" := by decide
example : guess_type [] = "TEXT" := by decide
example : guess_type [.str "hola"] = "TEXT" := by decide

/-! Helper lemmas. -/

theorem infix_append_left {x a : List Char} (h : x <:+: a) (b : List Char) :
    x <:+: a ++ b := by
  obtain ⟨u, v, rfl⟩ := h
  exact ⟨u, v ++ b, by simp⟩

theorem infix_append_right {x b : List Char} (a : List Char) (h : x <:+: b) :
    x <:+: a ++ b := by
  obtain ⟨u, v, rfl⟩ := h
  exact ⟨a ++ u, v, by simp⟩

theorem singleton_infix_of_mem {c : Char} {s : List Char} (h : c ∈ s) :
    [c] <:+: s := by
  obtain ⟨u, v, rfl⟩ := List.append_of_mem h
  exact ⟨u, v, by simp⟩

theorem lowerl_append (a b : List Char) : lowerl (a ++ b) = lowerl a ++ lowerl b :=
  List.map_append _ a b

/-- The enforced statement always carries a lowered " limit " substring:
either the original already had one, or one was just appended. -/
theorem limit_in_enforceLimit (s : List Char) (L : Int) :
    " limit ".data <:+: lowerl (enforceLimit s L) := by
  unfold enforceLimit
  by_cases h : " limit ".data <:+: lowerl s
  · rw [if_neg (not_not_intro h)]
    exact h
  · rw [if_pos h, lowerl_append, lowerl_append,
        (by decide : lowerl " LIMIT ".data = " limit ".data)]
    exact List.infix_append _ _ _

theorem limit_in_enforce (s : List Char) (L O : Int) :
    " limit ".data <:+: lowerl (enforce s L O) := by
  unfold enforce
  by_cases h : ¬ (" offset ".data <:+: lowerl s) ∧ O > 0
  · rw [if_pos h, lowerl_append, lowerl_append]
    exact infix_append_left (infix_append_left (limit_in_enforceLimit s L) _) _
  · rw [if_neg h]
    exact limit_in_enforceLimit s L

theorem offset_in_enforce (s : List Char) (L O : Int) (hO : O > 0) :
    " offset ".data <:+: lowerl (enforce s L O) := by
  unfold enforce
  by_cases h : " offset ".data <:+: lowerl s
  · rw [if_neg (by rintro ⟨hno, _⟩; exact hno h)]
    unfold enforceLimit
    by_cases h2 : " limit ".data <:+: lowerl s
    · rw [if_neg (not_not_intro h2)]
      exact h
    · rw [if_pos h2, lowerl_append, lowerl_append]
      exact infix_append_left (infix_append_left h _) _
  · rw [if_pos ⟨h, hO⟩, lowerl_append, lowerl_append,
        (by decide : lowerl " OFFSET ".data = " offset ".data)]
    exact List.infix_append _ _ _

theorem enforceLimit_noop (t : List Char) (L : Int)
    (h : " limit ".data <:+: lowerl t) : enforceLimit t L = t := by
  unfold enforceLimit
  exact if_neg (not_not_intro h)

theorem enforce_noop (t : List Char) (L O : Int)
    (hlim : " limit ".data <:+: lowerl t)
    (hoff : O > 0 → " offset ".data <:+: lowerl t) :
    enforce t L O = t := by
  have hc : ¬ (¬ (" offset ".data <:+: lowerl t) ∧ O > 0) := by
    rintro ⟨hno, hO⟩
    exact hno (hoff hO)
  unfold enforce
  rw [if_neg hc, enforceLimit_noop t L hlim]

/-! Claims. -/

/-- C7: pagination enforcement is idempotent — applying it a second time to
the output of the first application returns that output unchanged, for every
statement text and every requested limit and offset. -/
theorem c7_enforce_idempotent (s : List Char) (L O : Int) :
    enforce (enforce s L O) L O = enforce s L O :=
  enforce_noop (enforce s L O) L O (limit_in_enforce s L O)
    (offset_in_enforce s L O)

/-- C6: any raw SQL text containing the statement separator ";" is rejected
by the validation, whatever its leading keyword; on the scenario input
"SELECT * FROM sales; DROP TABLE sales" the rejection reason names the
separator pattern, not the write keyword also present. -/
theorem c6_semicolon_always_rejected :
    (∀ s : List Char, ';' ∈ s → validate s ≠ .ok) ∧
    validate "SELECT * FROM sales; DROP TABLE sales".data =
      .rejected "Patrón prohibido detectado: ;" := by
  constructor
  · intro s hs
    simp only [validate]
    split_ifs <;>
      first
        | exact absurd (singleton_infix_of_mem hs) (by assumption)
        | simp
  · decide

/-- C6 witness: a concrete separator-carrying input is rejected. -/
theorem c6_witness : validate "select 1; drop table ventas".data ≠ .ok :=
  c6_semicolon_always_rejected.1 "select 1; drop table ventas".data (by decide)

/-- C1 counterexample: "SELECT updated_at FROM ventas" begins with SELECT
and contains the banned word "update" only inside the identifier
"updated_at", yet the denylist rejects it — matching is on substrings, not
whole tokens. -/
theorem c1_counterexample :
    validate "SELECT updated_at FROM ventas".data =
      .rejected "Consulta contiene operaciones no permitidas." := by
  decide

/-- C1 (amended): the denylist matches raw substrings of the lowered text,
so any query whose lowered text contains a forbidden pattern anywhere —
including inside a legitimate identifier — is never accepted. -/
theorem c1_substring_matching (s : List Char)
    (h : ∃ p ∈ FORBIDDEN_PATTERNS, p <:+: lowerl s) :
    validate s ≠ .ok := by
  simp only [validate]
  split_ifs <;> simp_all

/-- C1 witness: the substring rejection applied at the identifier scenario. -/
theorem c1_witness : validate "SELECT updated_at FROM ventas".data ≠ .ok :=
  c1_substring_matching "SELECT updated_at FROM ventas".data (by decide)

/-- C2 counterexample: a requested limit of -3 is below 1, yet the reported
`limit_applied` is -3, not the default 500; a requested limit of 999999 is
reported as 999999 — nothing clamps it to any maximum such as 5000. -/
theorem c2_counterexample :
    run_query "SELECT codigo FROM ventas".data (some (-3)) Option.none [] =
      .ok ⟨[], -3, 0, 0, []⟩ ∧
    (-3 : Int) < 1 ∧ (-3 : Int) ≠ 500 ∧
    effLimit (some 999999) = 999999 ∧ (999999 : Int) ≠ 5000 :=
  ⟨by rfl, by decide, by decide, by rfl, by decide⟩

/-- C2 (amended): the effective limit is 500 only when the request omits the
limit or sends the falsy integer 0; every other requested value — negative
or arbitrarily large — is used verbatim, and `limit_applied` always reports
exactly that effective value. -/
theorem c2_effective_limit :
    effLimit Option.none = 500 ∧ effLimit (some 0) = 500 ∧
    (∀ v : Int, v ≠ 0 → effLimit (some v) = v) ∧
    (∀ (sql : List Char) (lo oo : Option Int)
       (rows : List (List (String × SVal))) (resp : RunQueryOk),
       run_query sql lo oo rows = .ok resp →
         resp.limit_applied = effLimit lo) := by
  refine ⟨rfl, rfl, ?_, ?_⟩
  · intro v hv
    simp [effLimit, hv]
  · intro sql lo oo rows resp h
    simp only [run_query] at h
    split at h
    · cases h
    · injection h with h'
      subst h'
      rfl

/-- C2 witness: limit 999999 is used verbatim. -/
theorem c2_witness : effLimit (some 999999) = 999999 :=
  c2_effective_limit.2.2.1 999999 (by decide)

/-- C3 counterexample: for a statement without a LIMIT clause, the derived
limit and offset are string-formatted straight into the SQL text and the
bound-parameter mapping is left empty — no placeholders, no reserved
parameter names. -/
theorem c3_counterexample :
    prepare "SELECT codigo FROM ventas".data [] 500 3 =
      ("SELECT codigo FROM ventas LIMIT 500 OFFSET 3".data,
       ([] : List (String × SVal))) := by
  decide

/-- C3 (amended): the enforcement interpolates the limit value into the
statement text itself (the decimal rendering of the limit becomes a
substring of the final text whenever a LIMIT is appended), and the
bound-parameter mapping is passed through completely unchanged — no
reserved names are ever added and no request is rejected for using one. -/
theorem c3_string_formatted (s : List Char) (ps : List (String × SVal))
    (L O : Int) (h : ¬ (" limit ".data <:+: lowerl s)) :
    (prepare s ps L O).2 = ps ∧
    (toString L).data <:+: (prepare s ps L O).1 := by
  refine ⟨rfl, ?_⟩
  have hL : (toString L).data <:+: enforceLimit s L := by
    unfold enforceLimit
    rw [if_pos h]
    exact ⟨s ++ " LIMIT ".data, [], by simp⟩
  show (toString L).data <:+: enforce s L O
  unfold enforce
  split_ifs with h2
  · exact infix_append_left (infix_append_left hL _) _
  · exact hL

/-- C3 witness: concrete formatted limit inside the prepared text, params
untouched. -/
theorem c3_witness :
    (prepare "SELECT codigo FROM ventas".data [] 500 0).2 = [] ∧
    (toString (500 : Int)).data <:+:
      (prepare "SELECT codigo FROM ventas".data [] 500 0).1 :=
  c3_string_formatted "SELECT codigo FROM ventas".data [] 500 0 (by decide)

theorem any_fst_eq (d : List (String × SVal)) (k : String) :
    (d.any fun p => p.1 == k) = true ↔ k ∈ d.map Prod.fst := by
  rw [List.any_eq_true]
  constructor
  · rintro ⟨p, hp, hb⟩
    exact List.mem_map.mpr ⟨p, hp, by simpa using hb⟩
  · intro hk
    obtain ⟨p, hp, hpk⟩ := List.mem_map.mp hk
    exact ⟨p, hp, by simpa using hpk⟩

theorem dictInsert_not_mem {d : List (String × SVal)} {k : String}
    (hk : k ∉ d.map Prod.fst) (v : SVal) :
    dictInsert d k v = d ++ [(k, v)] := by
  unfold dictInsert
  rw [if_neg]
  intro hany
  exact hk ((any_fst_eq d k).mp hany)

theorem dictInsert_mem_fsts {d : List (String × SVal)} {k : String}
    (hk : k ∈ d.map Prod.fst) (v : SVal) :
    (dictInsert d k v).map Prod.fst = d.map Prod.fst := by
  unfold dictInsert
  rw [if_pos ((any_fst_eq d k).mpr hk), List.map_map]
  apply List.map_congr_left
  intro p hp
  simp only [Function.comp]
  split_ifs with h
  · simp only [beq_iff_eq] at h
    exact h.symm
  · rfl

theorem dictInsert_nodup {d : List (String × SVal)} {k : String} {v : SVal}
    (hd : (d.map Prod.fst).Nodup) :
    ((dictInsert d k v).map Prod.fst).Nodup := by
  by_cases hk : k ∈ d.map Prod.fst
  · rw [dictInsert_mem_fsts hk v]
    exact hd
  · rw [dictInsert_not_mem hk v, List.map_append]
    simp [List.nodup_append, hd, hk]

theorem foldl_dictInsert_nodup (g : String → SVal) :
    ∀ (ks : List String) (d : List (String × SVal)),
      (d.map Prod.fst).Nodup →
      ((ks.foldl (fun d k => dictInsert d k (g k)) d).map Prod.fst).Nodup := by
  intro ks
  induction ks with
  | nil =>
      intro d hd
      simpa using hd
  | cons k ks ih =>
      intro d hd
      simp only [List.foldl_cons]
      exact ih (dictInsert d k (g k)) (dictInsert_nodup hd)

theorem dictOfRow_keys_nodup (r : List (String × SVal)) :
    ((dictOfRow r).map Prod.fst).Nodup := by
  unfold dictOfRow
  exact foldl_dictInsert_nodup (rowGet r) (r.map Prod.fst) [] (by simp)

theorem foldl_dictInsert_length (g : String → SVal) :
    ∀ (ks : List String) (d : List (String × SVal)), ks.Nodup →
      (∀ k ∈ ks, k ∉ d.map Prod.fst) →
      (ks.foldl (fun d k => dictInsert d k (g k)) d).length =
        d.length + ks.length := by
  intro ks
  induction ks with
  | nil =>
      intro d _ _
      simp
  | cons k ks ih =>
      intro d hnd hout
      simp only [List.foldl_cons]
      rw [dictInsert_not_mem (hout k (List.mem_cons_self k ks)) (g k)]
      rw [ih (d ++ [(k, g k)]) (List.nodup_cons.mp hnd).2 ?_]
      · simp
        omega
      · intro k' hk'
        rw [List.map_append]
        simp only [List.mem_append]
        rintro (hin | hin)
        · exact hout k' (List.mem_cons_of_mem _ hk') hin
        · simp only [List.map_cons, List.map_nil, List.mem_singleton] at hin
          exact (List.nodup_cons.mp hnd).1 (hin ▸ hk')

theorem dictOfRow_length_of_nodup {r : List (String × SVal)}
    (h : (r.map Prod.fst).Nodup) : (dictOfRow r).length = r.length := by
  unfold dictOfRow
  rw [foldl_dictInsert_length (rowGet r) (r.map Prod.fst) [] h (by simp)]
  simp

/-- C4 counterexample: a SELECT with a duplicated column name comes back as
two driver columns, but the response row is the keyed mapping
`dict(row)` with a single entry — the duplicate IS silently collapsed and
the row is not an ordered sequence of scalars. -/
theorem c4_counterexample :
    run_query "SELECT codigo, codigo FROM ventas".data Option.none Option.none
      [[("codigo", .int 1), ("codigo", .int 2)]] =
    .ok ⟨["codigo", "codigo"], 500, 0, 1, [[("codigo", .int 1)]]⟩ := by
  rfl

/-- C4 (amended): every row of a successful response is the name-keyed
mapping `dict(row)`; its keys are pairwise distinct, so duplicate SELECT
column names collapse to a single entry instead of being preserved as an
ordered sequence of scalars. -/
theorem c4_rows_keyed (sql : List Char) (lo oo : Option Int)
    (rows : List (List (String × SVal))) (resp : RunQueryOk)
    (h : run_query sql lo oo rows = .ok resp) :
    resp.rows = rows.map dictOfRow ∧
    ∀ d ∈ resp.rows, (d.map Prod.fst).Nodup := by
  simp only [run_query] at h
  split at h
  · cases h
  · injection h with h'
    subst h'
    refine ⟨rfl, ?_⟩
    intro d hd
    obtain ⟨r, hr, rfl⟩ := List.mem_map.mp hd
    exact dictOfRow_keys_nodup r

/-- C4 witness: the keyed-mapping description applied at a concrete
successful execution. -/
theorem c4_witness :
    (RunQueryOk.mk ["codigo"] 500 0 1 [[("codigo", SVal.int 7)]]).rows =
      ([[("codigo", SVal.int 7)]]).map dictOfRow ∧
    ∀ d ∈ (RunQueryOk.mk ["codigo"] 500 0 1 [[("codigo", SVal.int 7)]]).rows,
      (d.map Prod.fst).Nodup :=
  c4_rows_keyed "SELECT codigo FROM ventas".data Option.none Option.none
    [[("codigo", SVal.int 7)]] _ (by rfl)

/-- C5 counterexample: with a duplicated column name the fields list has
two entries while the returned (dict-collapsed) row has one, so
`len(fields) == len(each row)` fails on this successful execution. -/
theorem c5_counterexample :
    run_query "SELECT vendedor, vendedor FROM ventas".data Option.none
      Option.none [[("vendedor", .text "a"), ("vendedor", .text "b")]] =
    .ok ⟨["vendedor", "vendedor"], 500, 0, 1, [[("vendedor", .text "a")]]⟩ ∧
    (["vendedor", "vendedor"] : List String).length ≠
      ([("vendedor", SVal.text "a")] : List (String × SVal)).length :=
  ⟨by rfl, by decide⟩

/-- C5 (amended): `rowcount` always equals the number of returned rows; and
when the driver columns carry pairwise-distinct names (shared by every
row), each returned row has exactly as many entries as the fields list. -/
theorem c5_lengths (sql : List Char) (lo oo : Option Int)
    (rows : List (List (String × SVal))) (resp : RunQueryOk)
    (h : run_query sql lo oo rows = .ok resp) :
    resp.rowcount = resp.rows.length ∧
    (∀ ns : List String, ns.Nodup → (∀ r ∈ rows, r.map Prod.fst = ns) →
      ∀ d ∈ resp.rows, d.length = resp.fields.length) := by
  simp only [run_query] at h
  split at h
  · cases h
  · injection h with h'
    subst h'
    refine ⟨rfl, ?_⟩
    intro ns hns hall d hd
    obtain ⟨r, hr, rfl⟩ := List.mem_map.mp hd
    have hrns : r.map Prod.fst = ns := hall r hr
    have hlen : (dictOfRow r).length = r.length :=
      dictOfRow_length_of_nodup (hrns ▸ hns)
    cases rows with
    | nil => exact absurd hr (List.not_mem_nil r)
    | cons r0 rs =>
        have h0 : r0.map Prod.fst = ns := hall r0 (List.mem_cons_self r0 rs)
        show (dictOfRow r).length = (normalizeFields (r0 :: rs)).length
        have hnf : normalizeFields (r0 :: rs) = r0.map Prod.fst := rfl
        rw [hlen, hnf, h0, ← hrns]
        simp

/-- C5 witness: the length relations at a concrete successful execution. -/
theorem c5_witness :
    (RunQueryOk.mk ["codigo"] 500 0 1 [[("codigo", SVal.int 7)]]).rowcount =
      (RunQueryOk.mk ["codigo"] 500 0 1
        [[("codigo", SVal.int 7)]]).rows.length ∧
    (∀ ns : List String, ns.Nodup →
      (∀ r ∈ [[("codigo", SVal.int 7)]], r.map Prod.fst = ns) →
      ∀ d ∈ (RunQueryOk.mk ["codigo"] 500 0 1
          [[("codigo", SVal.int 7)]]).rows,
        d.length = (RunQueryOk.mk ["codigo"] 500 0 1
          [[("codigo", SVal.int 7)]]).fields.length) :=
  c5_lengths "SELECT codigo FROM ventas".data Option.none Option.none
    [[("codigo", SVal.int 7)]] _ (by rfl)

/-- C8 counterexample: a successful execution matching zero rows returns an
EMPTY fields list — it does not name the selected column "codigo". -/
theorem c8_counterexample :
    run_query "SELECT codigo FROM ventas".data Option.none Option.none [] =
      .ok ⟨[], 500, 0, 0, []⟩ ∧ ([] : List String) ≠ ["codigo"] :=
  ⟨by rfl, by decide⟩

/-- C8 (amended): the fields list mirrors the driver's column order (hence
SELECT-clause order) of the FIRST returned row; when the query matches zero
rows the fields list is empty rather than naming the selected columns. -/
theorem c8_fields (sql : List Char) (lo oo : Option Int)
    (rows : List (List (String × SVal))) (resp : RunQueryOk)
    (h : run_query sql lo oo rows = .ok resp) :
    (rows = [] → resp.fields = []) ∧
    ∀ r rs, rows = r :: rs → resp.fields = r.map Prod.fst := by
  simp only [run_query] at h
  split at h
  · cases h
  · injection h with h'
    subst h'
    constructor
    · rintro rfl
      rfl
    · rintro r rs rfl
      rfl

/-- C8 witness: the zero-row and one-row field behaviours at concrete
executions. -/
theorem c8_witness :
    (([] : List (List (String × SVal))) = [] →
      (RunQueryOk.mk [] 500 0 0 []).fields = []) ∧
    ∀ r rs, ([] : List (List (String × SVal))) = r :: rs →
      (RunQueryOk.mk [] 500 0 0 []).fields = r.map Prod.fst :=
  c8_fields "SELECT codigo FROM ventas".data Option.none Option.none
    [] _ (by rfl)

theorem not_prefix_of_head_ne {l₁ l₂ : List Char} {a b : Char}
    (ha : l₁.head? = some a) (hb : l₂.head? = some b) (hne : a ≠ b) :
    ¬ (l₁ <+: l₂) := by
  intro h
  obtain ⟨t, rfl⟩ := h
  cases l₁ with
  | nil => cases ha
  | cons c cs =>
      simp only [List.head?_cons, Option.some.injEq, List.cons_append] at ha hb
      subst ha
      subst hb
      exact hne rfl

/-- C9: the compiler emits a GROUP BY clause exactly when the dimension
list is non-empty, that clause lists the dimensions verbatim (comma-joined,
in the order supplied), and the SELECT clause leads with those same
dimensions in the same order followed by the metric expressions; a
pure-aggregate report produces no GROUP BY clause at all. -/
theorem c9_group_by (r : ReportQuery) (cs : List (List Char))
    (h : compileClauses r = .ok cs) :
    ((∃ c ∈ cs, "GROUP BY ".data <+: c) ↔ r.dimensions ≠ []) ∧
    (r.dimensions ≠ [] →
      ("GROUP BY ".data ++ joinComma r.dimensions) ∈ cs) ∧
    cs.head? = some ("SELECT ".data ++
      joinComma (r.dimensions ++ metricExprs r.metrics) ++
      " FROM ventas".data) := by
  rcases r with ⟨dims, ms, sort⟩
  simp only [compileClauses] at h
  split at h
  · cases h
  · split at h
    · cases h
    · split at h
      · cases h
      · injection h with h'
        subst h'
        have hoc : ∀ c ∈ orderClauses sort, ¬ ("GROUP BY ".data <+: c) := by
          intro c hc
          unfold orderClauses at hc
          split_ifs at hc
          · cases hc
          · simp only [List.mem_singleton] at hc
            subst hc
            exact not_prefix_of_head_ne rfl rfl (by decide)
        have hsel : ¬ ("GROUP BY ".data <+:
            ("SELECT ".data ++ joinComma (dims ++ metricExprs ms) ++
              " FROM ventas".data)) :=
          not_prefix_of_head_ne rfl rfl (by decide)
        by_cases hd : dims = []
        · subst hd
          refine ⟨?_, fun hne => absurd rfl hne, rfl⟩
          constructor
          · rintro ⟨c, hc, hpre⟩
            exfalso
            have hc' : c = "SELECT ".data ++
                joinComma (([] : List (List Char)) ++ metricExprs ms) ++
                " FROM ventas".data ∨ c ∈ orderClauses sort := by
              simpa using hc
            rcases hc' with rfl | hc'
            · exact hsel hpre
            · exact hoc c hc' hpre
          · intro hne
            exact absurd rfl hne
        · have hie : dims.isEmpty = false := by
            simpa using hd
          refine ⟨?_, ?_, rfl⟩
          · constructor
            · intro _
              exact hd
            · intro _
              refine ⟨"GROUP BY ".data ++ joinComma dims, ?_,
                List.prefix_append _ _⟩
              simp [hie]
          · intro _
            simp [hie]

/-- C9 witness: a one-dimension, one-metric report compiles with its GROUP
BY clause present and correctly placed. -/
theorem c9_witness :
    ((∃ c ∈ ["SELECT region, SUM(venta) AS venta FROM ventas".data,
             "GROUP BY region".data],
        "GROUP BY ".data <+: c) ↔ (["region".data] : List (List Char)) ≠ []) ∧
    ((["region".data] : List (List Char)) ≠ [] →
      ("GROUP BY ".data ++ joinComma ["region".data]) ∈
        ["SELECT region, SUM(venta) AS venta FROM ventas".data,
         "GROUP BY region".data]) ∧
    (["SELECT region, SUM(venta) AS venta FROM ventas".data,
      "GROUP BY region".data] : List (List Char)).head? =
      some ("SELECT ".data ++
        joinComma (["region".data] ++ metricExprs ["venta".data]) ++
        " FROM ventas".data) :=
  c9_group_by ⟨["region".data], ["venta".data], []⟩
    ["SELECT region, SUM(venta) AS venta FROM ventas".data,
     "GROUP BY region".data] (by rfl)

theorem decideType_safe (c : TypeCounts) :
    decideType c ≠ "DATE" ∧
    decideType c ∈ (["INTEGER", "REAL", "TEXT"] : List String) := by
  unfold decideType
  split_ifs <;>
    first
      | exact ⟨by decide, by decide⟩
      | (exfalso; omega)

/-- C10: over every possible sample, `guess_type` only ever returns
INTEGER, REAL or TEXT — the branch guarded by `dates>0 and
dates >= ints+reals` returns TEXT in all of its arms, which makes the later
DATE return unreachable — and therefore every imported column's SQLite
type (after the safety rewrite and the DATE-to-TEXT column mapping) is
never DATE. -/
theorem c10_never_date (values : List Cell) :
    guess_type values ≠ "DATE" ∧
    guess_type values ∈ (["INTEGER", "REAL", "TEXT"] : List String) ∧
    sqliteColType (sanitizeType (guess_type values)) ≠ "DATE" := by
  obtain ⟨h1, h2⟩ := decideType_safe (values.foldl countCell ⟨false, 0, 0, 0, 0⟩)
  refine ⟨h1, h2, ?_⟩
  have h3 : guess_type values = "INTEGER" ∨ guess_type values = "REAL" ∨
      guess_type values = "TEXT" := by
    simpa using h2
  rcases h3 with h | h | h <;> rw [h] <;> decide
